import Mathlib

/-!
Shallow embedding of the geospatial derivation pipeline of geotech-mvp
(src/geo_processing.py): parcel lookup (extract_property), slope estimation
(calculate_slope) and hazard evaluation (check_environmental_hazards).

Geometry itself is abstracted: every geometric primitive the Python code calls
(shapely/geopandas `intersects`, `intersection`, `centroid`, `distance`,
`buffer`, `area`, `contains`, CRS reprojection, and the numeric kernel
`np.degrees(np.arctan(_))`) is a field of a `GeoOps` record, and all
definitions and theorems are parametric in it.  The control flow, thresholds
and arithmetic of the Python functions are translated line by line.  File
loading is modelled by a `GeoEnv` record giving each layer as an `Except`
value: `.error` models `gpd.read_file` raising, which `load_geojson`
re-raises.  A function result `Except.error e` models the Python function
exiting by an uncaught exception `e`; `Except.ok v` models returning `v`.
-/

deriving instance DecidableEq for Except

namespace Geotech

/-- Hazard layer kinds, matching the keys of `HAZARD_FILES` in source order
(geo_processing.py lines 18-24). -/
inductive HazardKind where
  | erosion
  | potential_slide
  | seismic
  | steep_slope
  | watercourse
  deriving DecidableEq

/-- Modelled from the spec: models.py is not under src/, so the `Coordinates`
record is taken from spec section 3: latitude and longitude in geographic
degrees. -/
structure Coordinates where
  latitude : ℚ
  longitude : ℚ
  deriving DecidableEq

/-- Modelled from the spec: models.py is not under src/, so the `Property`
record is taken from spec section 3: a stable parcel identifier and the
authoritative boundary geometry. -/
structure Property (G : Type) where
  parcel_id : String
  geometry : G
  deriving DecidableEq

/-- Modelled from the spec: models.py is not under src/, so the `SlopeData`
record is taken from spec section 3: average slope and max slope in degrees,
average distance in meters.  The flat-fallback constructor calls in
geo_processing.py omit `average_distance`, modelled here as defaulting
to 0. -/
structure SlopeData where
  average_slope : ℚ
  max_slope : ℚ
  average_distance : ℚ
  deriving DecidableEq

/-- Modelled from the spec: models.py is not under src/, so the
`EnvironmentalCheck` record is taken from spec section 3: one boolean flag
per hazard kind. -/
structure EnvironmentalCheck where
  erosion : Bool
  potential_slide : Bool
  seismic : Bool
  steep_slope : Bool
  watercourse : Bool
  deriving DecidableEq

/-- One row of the contour GeoDataFrame: its `Elevation` attribute and its
geometry. -/
structure ContourRow (G : Type) where
  elevation : ℚ
  geom : G
  deriving DecidableEq

/-- One row of the parcel GeoDataFrame: its `PIN` attribute and its
geometry. -/
structure ParcelRow (G : Type) where
  pin : String
  geom : G
  deriving DecidableEq

/-- The parcel GeoDataFrame: whether the `PIN` column is present in the
schema (geo_processing.py line 50), and the rows in iteration order. -/
structure ParcelDataset (G : Type) where
  pinPresent : Bool
  rows : List (ParcelRow G)
  deriving DecidableEq

/-- Abstract geometry backend: the shapely/geopandas/numpy primitives used by
geo_processing.py.  `slopeDeg ed d` models `np.degrees(np.arctan(ed / d))`
(line 102); `toUTM` models `.to_crs("EPSG:32610")` reprojection; `mkPoint x y`
models `Point(x, y)`. -/
structure GeoOps (G : Type) where
  mkPoint : ℚ → ℚ → G
  contains : G → G → Bool
  intersects : G → G → Bool
  intersection : G → G → G
  is_empty : G → Bool
  centroid : G → G
  distance : G → G → ℚ
  buffer : G → ℚ → G
  area : G → ℚ
  toUTM : G → G
  slopeDeg : ℚ → ℚ → ℚ

/-- The reference data environment: the result of `load_geojson` on the
parcel file, the contour file, and each of the five hazard files.  An
`.error` value models `gpd.read_file` raising for that file. -/
structure GeoEnv (G : Type) where
  parcels : Except String (ParcelDataset G)
  contours : Except String (List (ContourRow G))
  hazard : HazardKind → Except String (List G)

/-- Arithmetic mean of a list, `np.mean` (geo_processing.py lines 111, 113). -/
def mean (l : List ℚ) : ℚ := l.sum / (l.length : ℚ)

/-- Maximum of a list, `np.max` (geo_processing.py line 112); 0 on the empty
list, which the source never reaches. -/
def maxQ : List ℚ → ℚ
  | [] => 0
  | [a] => a
  | a :: b :: rest => max a (maxQ (b :: rest))

instance {G : Type} :
    DecidableRel (fun a b : ContourRow G => a.elevation ≤ b.elevation) :=
  fun a b => inferInstanceAs (Decidable (a.elevation ≤ b.elevation))

/-- The pandas `sort_values(by="Elevation")` of geo_processing.py line 78,
modelled as a stable insertion sort on the `Elevation` attribute. -/
def sortByElev {G : Type} (l : List (ContourRow G)) : List (ContourRow G) :=
  List.insertionSort (fun a b => a.elevation ≤ b.elevation) l

/-- The row loop of extract_property (geo_processing.py lines 54-58): return
the first row whose geometry contains the point, as a `Property` carrying the
row's `PIN` verbatim. -/
def scanRows {G : Type} (ops : GeoOps G) (pt : G) :
    List (ParcelRow G) → Option (Property G)
  | [] => none
  | r :: rest =>
      if ops.contains r.geom pt then some ⟨r.pin, r.geom⟩
      else scanRows ops pt rest

/-- Body of extract_property after a successful parcel-layer load
(geo_processing.py lines 50-58): raise `ValueError` if the `PIN` column is
absent (lines 50-52), otherwise scan rows for the first containing polygon;
`none` models the `return None` of line 58 (no parcel found). -/
def extract_property_with {G : Type} (ops : GeoOps G) (c : Coordinates)
    (ds : ParcelDataset G) : Except String (Option (Property G)) :=
  if ds.pinPresent then
    .ok (scanRows ops (ops.mkPoint c.longitude c.latitude) ds.rows)
  else
    .error "PIN field not found in property GeoJSON"

/-- The try-block of extract_property (geo_processing.py lines 48-58): load
the parcel layer (an exception propagates), then run the body. -/
def extract_property_try {G : Type} (ops : GeoOps G) (env : GeoEnv G)
    (c : Coordinates) : Except String (Option (Property G)) :=
  match env.parcels with
  | .error e => .error e
  | .ok ds => extract_property_with ops c ds

/-- extract_property (geo_processing.py lines 47-61): the try-block wrapped in
the catch-all handler of lines 59-61, which logs and returns `None` on any
exception. -/
def extract_property {G : Type} (ops : GeoOps G) (env : GeoEnv G)
    (c : Coordinates) : Except String (Option (Property G)) :=
  match extract_property_try ops env c with
  | .ok r => .ok r
  | .error _ => .ok none

/-- Contour selection and clipping, geo_processing.py lines 71-78: select the
contours intersecting the projected parcel; if fewer than 2, reselect against
the parcel buffered by 10 meters; then clip every selected contour to the
ORIGINAL projected parcel (line 77 always intersects with
`property_geom_proj`), drop empty clips, and sort by elevation ascending. -/
def selectClip {G : Type} (ops : GeoOps G) (contours : List (ContourRow G))
    (pg : G) : List (ContourRow G) :=
  sortByElev
    (((if (contours.filter (fun r => ops.intersects r.geom pg)).length < 2 then
          contours.filter (fun r => ops.intersects r.geom (ops.buffer pg 10))
        else
          contours.filter (fun r => ops.intersects r.geom pg)).map
        (fun r => ⟨r.elevation, ops.intersection r.geom pg⟩)).filter
      (fun r => !(ops.is_empty r.geom)))

/-- The adjacent-pair loop of geo_processing.py lines 92-105: for each pair of
consecutive sorted segments, the absolute elevation difference and the
distance between centroids; the pair is kept only when the distance lies in
(0.5, 1000], contributing `(degrees(arctan(elev_diff / dist)), dist)`.  The
Python literal 0.5 is written `mkRat 1 2` (the same rational). -/
def pairScan {G : Type} (ops : GeoOps G) : List (ContourRow G) → List (ℚ × ℚ)
  | [] => []
  | [_] => []
  | a :: b :: rest =>
      (if mkRat 1 2 < ops.distance (ops.centroid a.geom) (ops.centroid b.geom) ∧
          ops.distance (ops.centroid a.geom) (ops.centroid b.geom) ≤ 1000 then
        [(ops.slopeDeg |b.elevation - a.elevation|
            (ops.distance (ops.centroid a.geom) (ops.centroid b.geom)),
          ops.distance (ops.centroid a.geom) (ops.centroid b.geom))]
      else []) ++ pairScan ops (b :: rest)

/-- The accepted slope angles (the `slopes` list of geo_processing.py). -/
def computedSlopes {G : Type} (ops : GeoOps G) (contours : List (ContourRow G))
    (pg : G) : List ℚ :=
  (pairScan ops (selectClip ops contours pg)).map Prod.fst

/-- The accepted pair distances (the `distances` list of geo_processing.py). -/
def computedDists {G : Type} (ops : GeoOps G) (contours : List (ContourRow G))
    (pg : G) : List ℚ :=
  (pairScan ops (selectClip ops contours pg)).map Prod.snd

/-- Lakefront-proximity signal, geo_processing.py lines 120-121: some erosion
polygon intersects the parcel buffered by 100 meters. -/
def lakeProximity {G : Type} (ops : GeoOps G) (erosionRows : List G) (pg : G) :
    Bool :=
  erosionRows.any (fun g => ops.intersects g (ops.buffer pg 100))

/-- The flat fallback `SlopeData(average_slope=0.0, max_slope=0.0)` of
geo_processing.py lines 83, 109 and 134. -/
def flatSlope : SlopeData := ⟨0, 0, 0⟩

/-- Aggregation and lakefront plausibility correction, geo_processing.py
lines 111-131: mean and max of the accepted slopes, mean of the accepted
distances; if the lakefront signal holds and the average slope is below 5
degrees, a max slope below 15 degrees is revised to exactly 15; the average
slope is never revised. -/
def slopeResult {G : Type} (ops : GeoOps G) (erosionRows : List G) (pg : G)
    (slopes dists : List ℚ) : SlopeData :=
  ⟨mean slopes,
    if lakeProximity ops erosionRows pg = true ∧ mean slopes < 5 then
      (if maxQ slopes < 15 then 15 else maxQ slopes)
    else maxQ slopes,
    mean dists⟩

/-- Body of calculate_slope after a successful contour-layer load
(geo_processing.py lines 68-131): select and clip (lines 71-78), return the
flat fallback when fewer than 2 segments remain (lines 81-83), run the pair
loop (lines 92-105), return the flat fallback when no pair passed the filter
(lines 107-109), load the erosion layer (line 119, an exception propagates),
and aggregate with the lakefront correction (lines 111-131). -/
def calculate_slope_with {G : Type} (ops : GeoOps G) (env : GeoEnv G)
    (prop : Property G) (contours : List (ContourRow G)) :
    Except String SlopeData :=
  if (selectClip ops contours (ops.toUTM prop.geometry)).length < 2 then
    .ok flatSlope
  else if computedSlopes ops contours (ops.toUTM prop.geometry) = [] then
    .ok flatSlope
  else
    match env.hazard HazardKind.erosion with
    | .error e => .error e
    | .ok erosionRows =>
        .ok (slopeResult ops erosionRows (ops.toUTM prop.geometry)
          (computedSlopes ops contours (ops.toUTM prop.geometry))
          (computedDists ops contours (ops.toUTM prop.geometry)))

/-- The try-block of calculate_slope: load the contour layer (an exception
propagates), then run the body on the loaded rows. -/
def calculate_slope_try {G : Type} (ops : GeoOps G) (env : GeoEnv G)
    (prop : Property G) : Except String SlopeData :=
  match env.contours with
  | .error e => .error e
  | .ok contours => calculate_slope_with ops env prop contours

/-- calculate_slope (geo_processing.py lines 63-134): the try-block wrapped in
the catch-all handler of lines 132-134, which logs and returns the flat
`SlopeData(average_slope=0.0, max_slope=0.0)` on any exception. -/
def calculate_slope {G : Type} (ops : GeoOps G) (env : GeoEnv G)
    (prop : Property G) : Except String SlopeData :=
  match calculate_slope_try ops env prop with
  | .ok s => .ok s
  | .error _ => .ok flatSlope

/-- Overlap fraction of one hazard layer with the projected parcel,
geo_processing.py lines 146-147: the summed area of the per-polygon
intersections with the parcel, divided by the parcel area when that area is
positive, else 0. -/
def overlapFrac {G : Type} (ops : GeoOps G) (pg : G) (layer : List G) : ℚ :=
  if ops.area pg > 0 then
    ((layer.map (fun g => ops.area (ops.intersection g pg))).sum) / ops.area pg
  else 0

/-- The try-block of check_environmental_hazards (geo_processing.py lines
137-158): load the five hazard layers in `HAZARD_FILES` order (an exception
from any load propagates, aborting the loop), and flag each kind iff its
overlap fraction strictly exceeds 0.1 (line 148). -/
def check_environmental_hazards_try {G : Type} (ops : GeoOps G) (env : GeoEnv G)
    (prop : Property G) : Except String EnvironmentalCheck :=
  match env.hazard HazardKind.erosion with
  | .error e => .error e
  | .ok l1 =>
      match env.hazard HazardKind.potential_slide with
      | .error e => .error e
      | .ok l2 =>
          match env.hazard HazardKind.seismic with
          | .error e => .error e
          | .ok l3 =>
              match env.hazard HazardKind.steep_slope with
              | .error e => .error e
              | .ok l4 =>
                  match env.hazard HazardKind.watercourse with
                  | .error e => .error e
                  | .ok l5 =>
                      .ok ⟨decide (overlapFrac ops (ops.toUTM prop.geometry) l1 > mkRat 1 10),
                        decide (overlapFrac ops (ops.toUTM prop.geometry) l2 > mkRat 1 10),
                        decide (overlapFrac ops (ops.toUTM prop.geometry) l3 > mkRat 1 10),
                        decide (overlapFrac ops (ops.toUTM prop.geometry) l4 > mkRat 1 10),
                        decide (overlapFrac ops (ops.toUTM prop.geometry) l5 > mkRat 1 10)⟩

/-- check_environmental_hazards (geo_processing.py lines 136-161): the
try-block wrapped in the catch-all handler of lines 159-161, which logs and
returns `None` on any exception. -/
def check_environmental_hazards {G : Type} (ops : GeoOps G) (env : GeoEnv G)
    (prop : Property G) : Except String (Option EnvironmentalCheck) :=
  match check_environmental_hazards_try ops env prop with
  | .ok c => .ok (some c)
  | .error _ => .ok none

/-- Projection of an `EnvironmentalCheck` onto one hazard kind's flag. -/
def flagOf (c : EnvironmentalCheck) : HazardKind → Bool
  | .erosion => c.erosion
  | .potential_slide => c.potential_slide
  | .seismic => c.seismic
  | .steep_slope => c.steep_slope
  | .watercourse => c.watercourse

/-- Whether an `Except` value is an exceptional exit. -/
def isError {α β : Type} : Except α β → Bool
  | .error _ => true
  | .ok _ => false

/-- Claim-side reading of the selection and clipping stage: contours selected
in the buffered retry are clipped to the buffered polygon (the polygon used
for selection) rather than to the original parcel polygon.  This definition
follows the words of claim C7 and is to be compared with `selectClip`, which
is translated from the source. -/
def selectClipSpec {G : Type} (ops : GeoOps G) (contours : List (ContourRow G))
    (pg : G) : List (ContourRow G) :=
  sortByElev
    (((if (contours.filter (fun r => ops.intersects r.geom pg)).length < 2 then
          (contours.filter (fun r => ops.intersects r.geom (ops.buffer pg 10))).map
            (fun r => ⟨r.elevation, ops.intersection r.geom (ops.buffer pg 10)⟩)
        else
          (contours.filter (fun r => ops.intersects r.geom pg)).map
            (fun r => ⟨r.elevation, ops.intersection r.geom pg⟩))).filter
      (fun r => !(ops.is_empty r.geom)))

/-!
Concrete test backend used to evaluate the embedding on explicit inputs.
A geometry is a finite list of rational points; the backend operations are
simple executable choices that exercise every code path of the pipeline.
The theorems below are parametric in the backend, so they hold for this one
in particular.
-/

/-- Test geometry: a finite list of rational points. -/
abbrev TG : Type := List (ℚ × ℚ)

/-- Executable test backend over `TG`. -/
def testOps : GeoOps TG :=
  { mkPoint := fun x y => [(x, y)]
    contains := fun poly pt => pt.all (fun q => decide (q ∈ poly))
    intersects := fun a b => a.any (fun q => decide (q ∈ b))
    intersection := fun a b => a.filter (fun q => decide (q ∈ b))
    is_empty := fun g => g.isEmpty
    centroid := fun g => g
    distance := fun a b =>
      match a, b with
      | p :: _, q :: _ => if p.1 = q.1 then 0 else 2
      | _, _ => 0
    buffer := fun g r => g ++ [(r, r)]
    area := fun g => (g.length : ℚ)
    toUTM := fun g => g
    slopeDeg := fun ed d => ed / d }

/-- Test parcel: two points on the x-axis. -/
def prop4 : Property TG := ⟨"P4", [(0, 0), (2, 0)]⟩

/-- Environment whose contour layer fails to load. -/
def envC1 : GeoEnv TG :=
  { parcels := .ok ⟨true, []⟩
    contours := .error "read_file failed"
    hazard := fun _ => .ok [] }

/-- Environment with two contours crossing `prop4` and an erosion polygon
touching it: the computed slopes are nonempty, the lakefront signal holds,
and the average slope is below 5 with max below 15. -/
def env4 : GeoEnv TG :=
  { parcels := .ok ⟨true, []⟩
    contours := .ok [⟨0, [(0, 0)]⟩, ⟨1, [(2, 0)]⟩]
    hazard := fun k =>
      match k with
      | .erosion => .ok [[(0, 0)]]
      | _ => .ok [] }

/-- Environment with an empty contour layer: the flat fallback fires. -/
def env6 : GeoEnv TG :=
  { parcels := .ok ⟨true, []⟩
    contours := .ok []
    hazard := fun _ => .ok [] }

/-- Environment whose erosion hazard layer fails to load. -/
def env2 : GeoEnv TG :=
  { parcels := .ok ⟨true, []⟩
    contours := .ok []
    hazard := fun k =>
      match k with
      | .erosion => .error "read_file failed"
      | _ => .ok [] }

/-- Test parcel with ten points, so its test area is 10. -/
def prop5 : Property TG :=
  ⟨"P5", [(0, 0), (1, 0), (2, 0), (3, 0), (4, 0), (5, 0), (6, 0), (7, 0), (8, 0), (9, 0)]⟩

/-- Hazard layers for the threshold test: erosion overlaps exactly 1 of the
10 parcel points (fraction exactly 1/10), potential slide overlaps 2 of them
(fraction 2/10), the rest overlap nothing. -/
def L5 : HazardKind → List TG
  | .erosion => [[(0, 0)]]
  | .potential_slide => [[(1, 0)], [(2, 0)]]
  | _ => []

/-- Environment whose five hazard layers are `L5`. -/
def env5 : GeoEnv TG :=
  { parcels := .ok ⟨true, []⟩
    contours := .ok []
    hazard := fun k => .ok (L5 k) }

/-- Test parcel with empty geometry, so its test area is 0. -/
def propZ : Property TG := ⟨"PZ", []⟩

/-- Environment whose hazard layers all hold one polygon. -/
def envZ : GeoEnv TG :=
  { parcels := .ok ⟨true, []⟩
    contours := .ok []
    hazard := fun _ => .ok [[(1, 1)]] }

/-- Parcel dataset for the lookup test: the point (0,0) is contained in the
second and third rows but not the first. -/
def ds8 : ParcelDataset TG :=
  ⟨true, [⟨"A", [(5, 5)]⟩, ⟨"B", [(0, 0), (9, 9)]⟩, ⟨"C", [(0, 0)]⟩]⟩

/-- Environment carrying `ds8` as the parcel layer. -/
def env8 : GeoEnv TG :=
  { parcels := .ok ds8
    contours := .ok []
    hazard := fun _ => .ok [] }

/-- Parcel dataset whose schema lacks the PIN column, with a row containing
the query point (0,0). -/
def dsNoPin : ParcelDataset TG := ⟨false, [⟨"X", [(0, 0)]⟩]⟩

/-- Environment carrying `dsNoPin` as the parcel layer. -/
def envNoPin : GeoEnv TG :=
  { parcels := .ok dsNoPin
    contours := .ok []
    hazard := fun _ => .ok [] }

/-- Environment whose parcel layer is present (with PIN) but contains no
parcel at all, so no parcel contains any query point. -/
def envNoMatch : GeoEnv TG :=
  { parcels := .ok ⟨true, []⟩
    contours := .ok []
    hazard := fun _ => .ok [] }

/-- Query coordinates mapped by the test backend to the point (0,0). -/
def c0 : Coordinates := ⟨0, 0⟩

/-- Contours for the clipping comparison: the first crosses the parcel, the
second only crosses the 10-meter buffered parcel. -/
def cs7 : List (ContourRow TG) := [⟨0, [(0, 0)]⟩, ⟨1, [(10, 10)]⟩]

/-- Parcel polygon for the clipping comparison. -/
def pg7 : TG := [(0, 0)]

/-!
Helper lemmas.
-/

/-- Every member of a list is bounded by `maxQ`. -/
lemma le_maxQ_of_mem : ∀ {l : List ℚ} {x : ℚ}, x ∈ l → x ≤ maxQ l
  | [], _, h => by cases h
  | [a], x, h => by
      simp only [List.mem_singleton] at h
      simp [maxQ, h]
  | a :: b :: rest, x, h => by
      rcases List.mem_cons.mp h with h1 | h2
      · subst h1
        exact le_max_left _ _
      · exact le_trans (le_maxQ_of_mem h2) (le_max_right _ _)

/-- The sum of a list is at most its length times its maximum. -/
lemma sum_le_length_mul_maxQ : ∀ l : List ℚ, l.sum ≤ (l.length : ℚ) * maxQ l
  | [] => by simp [maxQ]
  | [a] => by simp [maxQ]
  | a :: b :: rest => by
      have ih := sum_le_length_mul_maxQ (b :: rest)
      have h1 : a ≤ maxQ (a :: b :: rest) :=
        le_maxQ_of_mem (List.mem_cons_self a _)
      have h2 : maxQ (b :: rest) ≤ maxQ (a :: b :: rest) := le_max_right _ _
      have h3 : ((b :: rest).length : ℚ) * maxQ (b :: rest) ≤
          ((b :: rest).length : ℚ) * maxQ (a :: b :: rest) :=
        mul_le_mul_of_nonneg_left h2 (Nat.cast_nonneg _)
      have hlen : ((a :: b :: rest).length : ℚ) = ((b :: rest).length : ℚ) + 1 := by
        push_cast [List.length_cons]
        ring
      calc (a :: b :: rest).sum = a + (b :: rest).sum := by simp
        _ ≤ maxQ (a :: b :: rest) +
            ((b :: rest).length : ℚ) * maxQ (a :: b :: rest) :=
          add_le_add h1 (le_trans ih h3)
        _ = ((a :: b :: rest).length : ℚ) * maxQ (a :: b :: rest) := by
          rw [hlen]; ring

/-- The arithmetic mean of a nonempty list is at most its maximum. -/
lemma mean_le_maxQ {l : List ℚ} (h : l ≠ []) : mean l ≤ maxQ l := by
  have hpos : 0 < (l.length : ℚ) := by
    have := List.length_pos.mpr h
    exact_mod_cast this
  rw [mean, div_le_iff₀ hpos]
  exact le_trans (sum_le_length_mul_maxQ l) (le_of_eq (mul_comm _ _))

/-- The row scan of extract_property is the first row satisfying the
containment test, packaged as a `Property`. -/
lemma scanRows_eq_find {G : Type} (ops : GeoOps G) (pt : G) :
    ∀ l : List (ParcelRow G),
      scanRows ops pt l =
        (l.find? (fun r => ops.contains r.geom pt)).map (fun r => ⟨r.pin, r.geom⟩)
  | [] => rfl
  | r :: rest => by
      by_cases h : ops.contains r.geom pt
      · simp [scanRows, List.find?_cons_of_pos, h]
      · simp [scanRows, List.find?_cons_of_neg, h, scanRows_eq_find ops pt rest]

/-- Case analysis on a normal return of the calculate_slope try-block: either
the flat fallback, or the aggregated result with all its provenance. -/
lemma calculate_slope_try_cases {G : Type} (ops : GeoOps G) (env : GeoEnv G)
    (prop : Property G) (s : SlopeData)
    (h : calculate_slope_try ops env prop = .ok s) :
    s = flatSlope ∨
      ∃ contours erosionRows,
        env.contours = .ok contours ∧
        env.hazard HazardKind.erosion = .ok erosionRows ∧
        computedSlopes ops contours (ops.toUTM prop.geometry) ≠ [] ∧
        s = slopeResult ops erosionRows (ops.toUTM prop.geometry)
          (computedSlopes ops contours (ops.toUTM prop.geometry))
          (computedDists ops contours (ops.toUTM prop.geometry)) := by
  unfold calculate_slope_try at h
  split at h
  · exact absurd h (by simp)
  · next contours hc =>
      unfold calculate_slope_with at h
      split at h
      · left
        exact (Except.ok.inj h).symm
      · split at h
        · left
          exact (Except.ok.inj h).symm
        · next hne =>
            split at h
            · exact absurd h (by simp)
            · next erosionRows he =>
                right
                exact ⟨contours, erosionRows, hc, he, hne, (Except.ok.inj h).symm⟩

/-- Case analysis on a normal return of calculate_slope: the flat fallback
produced by the catch-all handler, or a normal return of the try-block. -/
lemma calculate_slope_ok_cases {G : Type} (ops : GeoOps G) (env : GeoEnv G)
    (prop : Property G) (s : SlopeData)
    (h : calculate_slope ops env prop = .ok s) :
    s = flatSlope ∨ calculate_slope_try ops env prop = .ok s := by
  unfold calculate_slope at h
  split at h
  · next s2 htry =>
      right
      rw [htry]
      exact congrArg Except.ok (Except.ok.inj h)
  · left
    exact (Except.ok.inj h).symm

/-!
Claim C1.
-/

/-- C1 counterexample: with a contour layer that fails to load,
calculate_slope does not exit with the load error; the catch-all handler of
geo_processing.py lines 132-134 converts the failure into the flat-slope
default SlopeData(average_slope=0, max_slope=0), contradicting the claim that
the failure is propagated and never converted. -/
theorem c1_counterexample :
    envC1.contours = .error "read_file failed" ∧
      calculate_slope testOps envC1 prop4 = .ok ⟨0, 0, 0⟩ ∧
      isError (calculate_slope testOps envC1 prop4) = false :=
  ⟨rfl, by decide, by decide⟩

/-- C1 amended: for every property, if loading the contour reference layer
fails, calculate_slope catches the exception and returns the flat-slope
default SlopeData(average_slope=0, max_slope=0) as a normal result; no error
propagates to the caller. -/
theorem calculate_slope_load_failure_flat {G : Type} (ops : GeoOps G)
    (env : GeoEnv G) (prop : Property G) (e : String)
    (hc : env.contours = .error e) :
    calculate_slope ops env prop = .ok flatSlope := by
  unfold calculate_slope calculate_slope_try
  rw [hc]

/-- C1 amended, witness at the concrete failing environment. -/
theorem c1_witness : calculate_slope testOps envC1 prop4 = .ok flatSlope :=
  calculate_slope_load_failure_flat testOps envC1 prop4 "read_file failed" rfl

/-!
Claim C2.
-/

/-- C2 counterexample: with an erosion layer that fails to load,
check_environmental_hazards does not exit with the load error; the catch-all
handler of geo_processing.py lines 159-161 converts the failure into a `None`
return, contradicting the claim that the evaluation aborts with a propagated
DataLoadError. -/
theorem c2_counterexample :
    env2.hazard HazardKind.erosion = .error "read_file failed" ∧
      check_environmental_hazards testOps env2 prop4 = .ok none ∧
      isError (check_environmental_hazards testOps env2 prop4) = false :=
  ⟨rfl, by decide, by decide⟩

/-- C2 amended: for every property, if any of the five hazard layers fails to
load, check_environmental_hazards returns `None` — it never returns a partial
EnvironmentalCheck in which some flags were computed and others defaulted,
and the load error is caught internally rather than propagated. -/
theorem check_hazards_load_failure_none {G : Type} (ops : GeoOps G)
    (env : GeoEnv G) (prop : Property G)
    (h : ∃ k e, env.hazard k = .error e) :
    check_environmental_hazards ops env prop = .ok none := by
  obtain ⟨k, e, hk⟩ := h
  unfold check_environmental_hazards check_environmental_hazards_try
  cases h1 : env.hazard HazardKind.erosion with
  | error e1 => rfl
  | ok l1 =>
      cases h2 : env.hazard HazardKind.potential_slide with
      | error e2 => rfl
      | ok l2 =>
          cases h3 : env.hazard HazardKind.seismic with
          | error e3 => rfl
          | ok l3 =>
              cases h4 : env.hazard HazardKind.steep_slope with
              | error e4 => rfl
              | ok l4 =>
                  cases h5 : env.hazard HazardKind.watercourse with
                  | error e5 => rfl
                  | ok l5 =>
                      cases k with
                      | erosion => rw [h1] at hk; exact absurd hk (by simp)
                      | potential_slide => rw [h2] at hk; exact absurd hk (by simp)
                      | seismic => rw [h3] at hk; exact absurd hk (by simp)
                      | steep_slope => rw [h4] at hk; exact absurd hk (by simp)
                      | watercourse => rw [h5] at hk; exact absurd hk (by simp)

/-- C2 amended, witness at the concrete failing environment. -/
theorem c2_witness : check_environmental_hazards testOps env2 prop4 = .ok none :=
  check_hazards_load_failure_none testOps env2 prop4
    ⟨HazardKind.erosion, "read_file failed", rfl⟩

/-!
Claim C3.
-/

/-- C3: every SlopeData result returned by calculate_slope — the flat
fallback, the lakefront-corrected results and the uncorrected aggregates —
satisfies max_slope ≥ average_slope. -/
theorem calculate_slope_max_ge_avg {G : Type} (ops : GeoOps G) (env : GeoEnv G)
    (prop : Property G) (s : SlopeData)
    (h : calculate_slope ops env prop = .ok s) :
    s.average_slope ≤ s.max_slope := by
  rcases calculate_slope_ok_cases ops env prop s h with hflat | htry
  · subst hflat
    exact le_refl 0
  · rcases calculate_slope_try_cases ops env prop s htry with hflat | hagg
    · subst hflat
      exact le_refl 0
    · obtain ⟨contours, erosionRows, _, _, hne, hs⟩ := hagg
      subst hs
      unfold slopeResult
      simp only
      have hm : mean (computedSlopes ops contours (ops.toUTM prop.geometry)) ≤
          maxQ (computedSlopes ops contours (ops.toUTM prop.geometry)) :=
        mean_le_maxQ hne
      by_cases hl : lakeProximity ops erosionRows (ops.toUTM prop.geometry) = true ∧
          mean (computedSlopes ops contours (ops.toUTM prop.geometry)) < 5
      · rw [if_pos hl]
        by_cases hmx : maxQ (computedSlopes ops contours (ops.toUTM prop.geometry)) < 15
        · rw [if_pos hmx]
          linarith [hl.2]
        · rw [if_neg hmx]
          exact hm
      · rw [if_neg hl]
        exact hm

/-- C3 witness, at a concrete environment exercising the lakefront-corrected
branch. -/
theorem c3_witness :
    (SlopeData.mk (1 / 2) 15 2).average_slope ≤ (SlopeData.mk (1 / 2) 15 2).max_slope :=
  calculate_slope_max_ge_avg testOps env4 prop4 ⟨1 / 2, 15, 2⟩ (by
    norm_num [calculate_slope, calculate_slope_try, calculate_slope_with, selectClip,
      sortByElev, pairScan, computedSlopes, computedDists, mean, maxQ, lakeProximity,
      slopeResult, testOps, env4, prop4, flatSlope, List.insertionSort, List.orderedInsert,
      Prod.mk.injEq])

/-!
Claim C4.
-/

/-- C4: for a property whose computed slopes are nonempty, if the lakefront
signal holds, the computed average slope is below 5 degrees and the computed
max slope is below 15 degrees, calculate_slope returns max_slope revised to
exactly 15 with average_slope (and average_distance) unchanged; if the average
slope is 5 or more, or the max slope is 15 or more, or the lakefront signal is
false, both values are returned unrevised. -/
theorem calculate_slope_lakefront {G : Type} (ops : GeoOps G) (env : GeoEnv G)
    (prop : Property G) (contours : List (ContourRow G)) (erosionRows : List G)
    (pg : G)
    (hc : env.contours = .ok contours)
    (he : env.hazard HazardKind.erosion = .ok erosionRows)
    (hpg : pg = ops.toUTM prop.geometry)
    (hlen : ¬(selectClip ops contours pg).length < 2)
    (hne : computedSlopes ops contours pg ≠ []) :
    (lakeProximity ops erosionRows pg = true →
        mean (computedSlopes ops contours pg) < 5 →
        maxQ (computedSlopes ops contours pg) < 15 →
        calculate_slope ops env prop =
          .ok ⟨mean (computedSlopes ops contours pg), 15,
            mean (computedDists ops contours pg)⟩) ∧
      (5 ≤ mean (computedSlopes ops contours pg) ∨
          15 ≤ maxQ (computedSlopes ops contours pg) ∨
          lakeProximity ops erosionRows pg = false →
        calculate_slope ops env prop =
          .ok ⟨mean (computedSlopes ops contours pg),
            maxQ (computedSlopes ops contours pg),
            mean (computedDists ops contours pg)⟩) := by
  subst hpg
  have h1 : calculate_slope_try ops env prop =
      calculate_slope_with ops env prop contours := by
    unfold calculate_slope_try
    rw [hc]
  have h2 : calculate_slope_with ops env prop contours =
      .ok (slopeResult ops erosionRows (ops.toUTM prop.geometry)
        (computedSlopes ops contours (ops.toUTM prop.geometry))
        (computedDists ops contours (ops.toUTM prop.geometry))) := by
    unfold calculate_slope_with
    rw [if_neg hlen, if_neg hne, he]
  have hbase : calculate_slope ops env prop =
      .ok (slopeResult ops erosionRows (ops.toUTM prop.geometry)
        (computedSlopes ops contours (ops.toUTM prop.geometry))
        (computedDists ops contours (ops.toUTM prop.geometry))) := by
    unfold calculate_slope
    rw [h1, h2]
  constructor
  · intro hlake havg hmx
    rw [hbase]
    unfold slopeResult
    rw [if_pos ⟨hlake, havg⟩, if_pos hmx]
  · intro hcase
    rw [hbase]
    unfold slopeResult
    rcases hcase with h5 | h15 | hfl
    · rw [if_neg (fun hx => absurd hx.2 (not_lt.mpr h5))]
    · by_cases hl2 : lakeProximity ops erosionRows (ops.toUTM prop.geometry) = true ∧
          mean (computedSlopes ops contours (ops.toUTM prop.geometry)) < 5
      · rw [if_pos hl2, if_neg (not_lt.mpr h15)]
      · rw [if_neg hl2]
    · rw [if_neg]
      rintro ⟨hx1, _⟩
      rw [hfl] at hx1
      exact Bool.false_ne_true hx1

/-- C4 witness: concrete environment in the corrected branch, with computed
average slope 1/2, computed max slope 1/2, and lakefront signal true; the
result has max_slope 15 and average_slope 1/2. -/
theorem c4_witness : calculate_slope testOps env4 prop4 = .ok ⟨1 / 2, 15, 2⟩ := by
  have h := (calculate_slope_lakefront testOps env4 prop4
      [⟨0, [(0, 0)]⟩, ⟨1, [(2, 0)]⟩] [[(0, 0)]] (testOps.toUTM prop4.geometry)
      rfl rfl rfl (by decide) (by decide)).1 (by decide)
      (by norm_num [computedSlopes, pairScan, selectClip, sortByElev, mean, testOps,
        prop4, List.insertionSort, List.orderedInsert])
      (by norm_num [computedSlopes, pairScan, selectClip, sortByElev, maxQ, testOps,
        prop4, List.insertionSort, List.orderedInsert])
  refine h.trans ?_
  norm_num [computedSlopes, computedDists, pairScan, selectClip, sortByElev, mean,
    testOps, prop4, List.insertionSort, List.orderedInsert]

/-- Evaluation of check_environmental_hazards when all five hazard layers
load: the result is the record of threshold tests. -/
lemma check_hazards_all_ok {G : Type} (ops : GeoOps G) (env : GeoEnv G)
    (prop : Property G) (L : HazardKind → List G)
    (hL : ∀ k, env.hazard k = .ok (L k)) :
    check_environmental_hazards ops env prop =
      .ok (some
        ⟨decide (overlapFrac ops (ops.toUTM prop.geometry) (L HazardKind.erosion) > mkRat 1 10),
          decide (overlapFrac ops (ops.toUTM prop.geometry) (L HazardKind.potential_slide) > mkRat 1 10),
          decide (overlapFrac ops (ops.toUTM prop.geometry) (L HazardKind.seismic) > mkRat 1 10),
          decide (overlapFrac ops (ops.toUTM prop.geometry) (L HazardKind.steep_slope) > mkRat 1 10),
          decide (overlapFrac ops (ops.toUTM prop.geometry) (L HazardKind.watercourse) > mkRat 1 10)⟩) := by
  unfold check_environmental_hazards check_environmental_hazards_try
  rw [hL HazardKind.erosion, hL HazardKind.potential_slide, hL HazardKind.seismic,
    hL HazardKind.steep_slope, hL HazardKind.watercourse]

/-!
Claim C5.
-/

/-- C5: for every property and every hazard kind, evaluate sets the hazard
flag to true if and only if the overlap ratio strictly exceeds 0.1 (written
`mkRat 1 10`, the exact value of the Python literal); a ratio exactly equal
to 0.1 yields false — the threshold is exclusive. -/
theorem check_hazards_threshold {G : Type} (ops : GeoOps G) (env : GeoEnv G)
    (prop : Property G) (L : HazardKind → List G)
    (hL : ∀ k, env.hazard k = .ok (L k)) (c : EnvironmentalCheck)
    (hc : check_environmental_hazards ops env prop = .ok (some c))
    (k : HazardKind) :
    (flagOf c k = true ↔
        overlapFrac ops (ops.toUTM prop.geometry) (L k) > mkRat 1 10) ∧
      (overlapFrac ops (ops.toUTM prop.geometry) (L k) = mkRat 1 10 →
        flagOf c k = false) := by
  have hval := check_hazards_all_ok ops env prop L hL
  rw [hval] at hc
  have hcc := Option.some.inj (Except.ok.inj hc)
  subst hcc
  cases k with
  | erosion =>
      constructor
      · simp only [flagOf]
        exact ⟨fun h => of_decide_eq_true h, fun h => decide_eq_true h⟩
      · intro hk
        simp only [flagOf, hk]
        decide
  | potential_slide =>
      constructor
      · simp only [flagOf]
        exact ⟨fun h => of_decide_eq_true h, fun h => decide_eq_true h⟩
      · intro hk
        simp only [flagOf, hk]
        decide
  | seismic =>
      constructor
      · simp only [flagOf]
        exact ⟨fun h => of_decide_eq_true h, fun h => decide_eq_true h⟩
      · intro hk
        simp only [flagOf, hk]
        decide
  | steep_slope =>
      constructor
      · simp only [flagOf]
        exact ⟨fun h => of_decide_eq_true h, fun h => decide_eq_true h⟩
      · intro hk
        simp only [flagOf, hk]
        decide
  | watercourse =>
      constructor
      · simp only [flagOf]
        exact ⟨fun h => of_decide_eq_true h, fun h => decide_eq_true h⟩
      · intro hk
        simp only [flagOf, hk]
        decide

/-- C5 witness: a ten-point parcel where the erosion layer overlaps exactly
one tenth of the parcel (ratio exactly 0.1, flag false). -/
theorem c5_witness :
    (flagOf ⟨false, true, false, false, false⟩ HazardKind.erosion = true ↔
        overlapFrac testOps (testOps.toUTM prop5.geometry) (L5 HazardKind.erosion) > mkRat 1 10) ∧
      (overlapFrac testOps (testOps.toUTM prop5.geometry) (L5 HazardKind.erosion) = mkRat 1 10 →
        flagOf ⟨false, true, false, false, false⟩ HazardKind.erosion = false) :=
  check_hazards_threshold testOps env5 prop5 L5 (fun _ => rfl)
    ⟨false, true, false, false, false⟩
    (by norm_num [check_environmental_hazards, check_environmental_hazards_try,
      overlapFrac, testOps, env5, prop5, L5, Rat.mkRat_eq_div])
    HazardKind.erosion

/-!
Claim C6.
-/

/-- C6: for a property for which, after clipping and discarding empty
results, fewer than 2 contour segments remain, or for which no adjacent pair
passed the distance filter, calculate_slope returns the flat fallback
SlopeData with average_slope 0 and max_slope 0 as a normal result, not an
error. -/
theorem calculate_slope_flat_fallback {G : Type} (ops : GeoOps G)
    (env : GeoEnv G) (prop : Property G) (contours : List (ContourRow G))
    (hc : env.contours = .ok contours)
    (h : (selectClip ops contours (ops.toUTM prop.geometry)).length < 2 ∨
      computedSlopes ops contours (ops.toUTM prop.geometry) = []) :
    calculate_slope ops env prop = .ok ⟨0, 0, 0⟩ := by
  have h1 : calculate_slope_try ops env prop =
      calculate_slope_with ops env prop contours := by
    unfold calculate_slope_try
    rw [hc]
  have h2 : calculate_slope_with ops env prop contours = .ok flatSlope := by
    unfold calculate_slope_with
    rcases h with h | h
    · rw [if_pos h]
    · by_cases hlen : (selectClip ops contours (ops.toUTM prop.geometry)).length < 2
      · rw [if_pos hlen]
      · rw [if_neg hlen, if_pos h]
  unfold calculate_slope
  rw [h1, h2]
  rfl

/-- C6 witness: an empty contour layer yields the flat fallback. -/
theorem c6_witness : calculate_slope testOps env6 prop4 = .ok ⟨0, 0, 0⟩ :=
  calculate_slope_flat_fallback testOps env6 prop4 [] rfl (Or.inl (by decide))

/-!
Claim C7.
-/

/-- C7 counterexample: a concrete parcel and contour layer where the retry
fires (fewer than 2 first-pass intersections), and the source clipping stage
`selectClip` (which clips to the original parcel, geo_processing.py line 77)
differs from the claim-side `selectClipSpec` (which clips to the buffered
polygon used for selection): the contour crossing only the buffered parcel is
clipped to empty and discarded by the source. -/
theorem c7_counterexample :
    (cs7.filter (fun r => testOps.intersects r.geom pg7)).length < 2 ∧
      selectClip testOps cs7 pg7 ≠ selectClipSpec testOps cs7 pg7 :=
  ⟨by decide, by decide⟩

/-- C7 amended: when fewer than 2 contours intersect the parcel polygon,
selection is retried against the parcel buffered by 10 meters, but each
contour selected in the retry is clipped to the ORIGINAL parcel polygon (not
the buffered one); empty clipping results are discarded and the remaining
segments are sorted by elevation ascending. -/
theorem selectClip_retry_clips_to_parcel {G : Type} (ops : GeoOps G)
    (contours : List (ContourRow G)) (pg : G)
    (h : (contours.filter (fun r => ops.intersects r.geom pg)).length < 2) :
    selectClip ops contours pg =
      sortByElev
        (((contours.filter (fun r => ops.intersects r.geom (ops.buffer pg 10))).map
            (fun r => ⟨r.elevation, ops.intersection r.geom pg⟩)).filter
          (fun r => !(ops.is_empty r.geom))) ∧
      (selectClip ops contours pg).Pairwise
        (fun a b => a.elevation ≤ b.elevation) := by
  constructor
  · unfold selectClip
    rw [if_pos h]
  · unfold selectClip sortByElev
    haveI : IsTotal (ContourRow G) (fun a b => a.elevation ≤ b.elevation) :=
      ⟨fun a b => le_total a.elevation b.elevation⟩
    haveI : IsTrans (ContourRow G) (fun a b => a.elevation ≤ b.elevation) :=
      ⟨fun _ _ _ h1 h2 => le_trans h1 h2⟩
    exact List.sorted_insertionSort _ _

/-- C7 amended, witness: on the concrete retry input the surviving segment is
the one clipped to the original parcel, and the output is sorted. -/
theorem c7_witness :
    selectClip testOps cs7 pg7 = [⟨0, [(0, 0)]⟩] ∧
      (selectClip testOps cs7 pg7).Pairwise (fun a b => a.elevation ≤ b.elevation) := by
  have h := selectClip_retry_clips_to_parcel testOps cs7 pg7 (by decide)
  exact ⟨h.1.trans (by decide), h.2⟩

/-!
Claim C8.
-/

/-- C8: for every coordinate pair, given a loadable parcel dataset whose
schema has the PIN column, extract_property returns a Property if and only if
some parcel polygon contains the query point; the returned parcel is the
first containing row in dataset iteration order with its PIN verbatim, and if
no parcel contains the point the result is None (NotFound). -/
theorem extract_property_first_containing {G : Type} (ops : GeoOps G)
    (env : GeoEnv G) (c : Coordinates) (ds : ParcelDataset G)
    (hp : env.parcels = .ok ds) (hpin : ds.pinPresent = true) :
    extract_property ops env c =
      .ok ((ds.rows.find? (fun r =>
          ops.contains r.geom (ops.mkPoint c.longitude c.latitude))).map
        (fun r => ⟨r.pin, r.geom⟩)) ∧
      ((∃ p, extract_property ops env c = .ok (some p)) ↔
        ∃ r ∈ ds.rows,
          ops.contains r.geom (ops.mkPoint c.longitude c.latitude) = true) := by
  have h1 : extract_property_try ops env c = extract_property_with ops c ds := by
    unfold extract_property_try
    rw [hp]
  have h2 : extract_property_with ops c ds =
      .ok (scanRows ops (ops.mkPoint c.longitude c.latitude) ds.rows) := by
    unfold extract_property_with
    rw [if_pos hpin]
  have hmain : extract_property ops env c =
      .ok ((ds.rows.find? (fun r =>
          ops.contains r.geom (ops.mkPoint c.longitude c.latitude))).map
        (fun r => ⟨r.pin, r.geom⟩)) := by
    unfold extract_property
    rw [h1, h2, scanRows_eq_find]
  refine ⟨hmain, ?_⟩
  rw [hmain]
  constructor
  · rintro ⟨p, hpe⟩
    have hmap := Except.ok.inj hpe
    rcases Option.map_eq_some'.mp hmap with ⟨r, hfind, _⟩
    have hps := List.find?_some hfind
    exact ⟨r, List.mem_of_find?_eq_some hfind, hps⟩
  · rintro ⟨r, hmem, hcont⟩
    have hsome : (ds.rows.find? (fun r =>
        ops.contains r.geom (ops.mkPoint c.longitude c.latitude))).isSome := by
      rw [List.find?_isSome]
      exact ⟨r, hmem, hcont⟩
    rcases Option.isSome_iff_exists.mp hsome with ⟨r2, hr2⟩
    exact ⟨⟨r2.pin, r2.geom⟩, by rw [hr2]; rfl⟩

/-- C8 witness: the point (0,0) is contained in the second and third rows of
`ds8`; the lookup returns the second row (first in iteration order) with its
PIN verbatim. -/
theorem c8_witness :
    extract_property testOps env8 c0 = .ok (some ⟨"B", [(0, 0), (9, 9)]⟩) := by
  have h := extract_property_first_containing testOps env8 c0 ds8 rfl rfl
  exact h.1.trans (by decide)

/-!
Claim C9.
-/

/-- C9 counterexample: with a parcel dataset lacking the PIN column,
extract_property does not fail with a distinct FieldMissingError visible to
the caller: the internal ValueError is caught by the handler of
geo_processing.py lines 59-61 and the function returns None — exactly the
NotFound outcome produced when no parcel contains the point, and not an
error. -/
theorem c9_counterexample :
    extract_property testOps envNoPin c0 = .ok none ∧
      extract_property testOps envNoMatch c0 = .ok none ∧
      isError (extract_property testOps envNoPin c0) = false :=
  ⟨by decide, by decide, by decide⟩

/-- C9 amended: if the parcel dataset schema lacks the PIN column,
extract_property raises ValueError internally but its catch-all handler
converts it to None, the same observable outcome as NotFound. -/
theorem extract_property_missing_pin_none {G : Type} (ops : GeoOps G)
    (env : GeoEnv G) (c : Coordinates) (ds : ParcelDataset G)
    (hp : env.parcels = .ok ds) (hpin : ds.pinPresent = false) :
    extract_property ops env c = .ok none := by
  have h1 : extract_property_try ops env c = extract_property_with ops c ds := by
    unfold extract_property_try
    rw [hp]
  have h2 : extract_property_with ops c ds =
      .error "PIN field not found in property GeoJSON" := by
    unfold extract_property_with
    rw [if_neg (by simp [hpin])]
  unfold extract_property
  rw [h1, h2]

/-- C9 amended, witness at the concrete PIN-less dataset. -/
theorem c9_witness : extract_property testOps envNoPin c0 = .ok none :=
  extract_property_missing_pin_none testOps envNoPin c0 dsNoPin rfl rfl

/-!
Claim C10.
-/

/-- C10: for a property whose projected geometry has zero planar area,
check_environmental_hazards does not fail: each overlap ratio is defined as
0, so the result is an EnvironmentalCheck with all five hazard flags
false. -/
theorem check_hazards_zero_area {G : Type} (ops : GeoOps G) (env : GeoEnv G)
    (prop : Property G) (L : HazardKind → List G)
    (hL : ∀ k, env.hazard k = .ok (L k))
    (hz : ops.area (ops.toUTM prop.geometry) = 0) :
    check_environmental_hazards ops env prop =
      .ok (some ⟨false, false, false, false, false⟩) := by
  have hfrac : ∀ layer : List G,
      overlapFrac ops (ops.toUTM prop.geometry) layer = 0 := by
    intro layer
    unfold overlapFrac
    rw [hz, if_neg (lt_irrefl 0)]
  rw [check_hazards_all_ok ops env prop L hL]
  simp only [hfrac]
  rfl

/-- C10 witness: an empty test geometry has area 0, and all five flags come
back false. -/
theorem c10_witness :
    check_environmental_hazards testOps envZ propZ =
      .ok (some ⟨false, false, false, false, false⟩) :=
  check_hazards_zero_area testOps envZ propZ (fun _ => [[(1, 1)]])
    (fun _ => rfl) (by decide)

end Geotech
